import Mathlib

/-!
Verification development for the license validation and device-binding core.

The definitions below are a shallow embedding of the JavaScript sources:

* `compareVersions`, `generateToken`, `buildResponse`, `versionCheck`,
  `handlerCore` and `handler` embed the validate endpoint
  (src/unnamed/part_002);
* `verifyToken` embeds the token verifier (src/unnamed/part_001);
* the `Race` namespace embeds the binding-resolution section of the validate
  handler at store-operation granularity, so that two interleaved requests for
  the same license key can be analysed.

The model covers GET validation requests; the CORS headers, the OPTIONS
preflight and the 405 branch for other methods are outside every claim and are
omitted.  Store accesses are modelled by their observable results (`DbResult`):
`found` is a row, `notFound` is PostgREST's PGRST116 "no rows" outcome of
`.single()`, and `err` is any other store failure.  The binding store is
modelled with the one-row-per-key uniqueness the data model prescribes, so a
second insert for the same key fails (`insertOk = false` / the race model's
`error` outcome).
-/

namespace LicenseCore

/-- JavaScript `v.split('.')` on the list of characters: accumulates the
current component (reversed) and emits it at each `'.'` and at the end. -/
def splitDotsAux : List Char → List Char → List String
  | [], acc => [String.mk acc.reverse]
  | c :: cs, acc =>
    if c = '.' then String.mk acc.reverse :: splitDotsAux cs []
    else splitDotsAux cs (c :: acc)

/-- JavaScript `v.split('.')`: `"1.9"` becomes `["1", "9"]` and `""` becomes
`[""]`. -/
def splitDots (s : String) : List String :=
  splitDotsAux s.data []

/-- Reads a non-empty run of decimal digits into a number; any non-digit
character makes the whole string non-numeric (`none`). -/
def decDigitsAux : List Char → Nat → Option Nat
  | [], acc => some acc
  | c :: cs, acc =>
    if c.isDigit then decDigitsAux cs (acc * 10 + (c.toNat - 48)) else none

/-- Value of a non-empty all-digit character list; `none` on the empty list or
on any non-digit. -/
def decDigits : List Char → Option Nat
  | [] => none
  | c :: cs => decDigitsAux (c :: cs) 0

/-- Models the JavaScript `Number(s)` coercion on the strings that arise as
dot-separated version components: the empty string coerces to `0`, a string of
decimal digits (optionally signed) to its value, and anything else to `NaN`,
represented here as `none`. -/
def jsNumber (s : String) : Option Int :=
  match s.data with
  | [] => some 0
  | c :: cs =>
    if c = '-' then (decDigits cs).map (fun n : Nat => -(n : Int))
    else if c = '+' then (decDigits cs).map (fun n : Nat => (n : Int))
    else (decDigits (c :: cs)).map (fun n : Nat => (n : Int))

/-- The loop body's `parts[i] || 0`: an index past the end of the array gives
`undefined`, and `undefined`, `NaN` and `0` are all falsy in JavaScript, so
each of them coerces to `0`. -/
def partAt (ps : List (Option Int)) (i : Nat) : Int :=
  ((ps.get? i).getD (some 0)).getD 0

/-- The `for` loop of `compareVersions`: compares components at indices
`i, i + 1, …` for `n` iterations, returning at the first strict inequality. -/
def compareParts (ps1 ps2 : List (Option Int)) (i : Nat) : Nat → Int
  | 0 => 0
  | n + 1 =>
    let part1 := partAt ps1 i
    let part2 := partAt ps2 i
    if part1 < part2 then -1
    else if part1 > part2 then 1
    else compareParts ps1 ps2 (i + 1) n

/-- `compareVersions(v1, v2)` from the validate endpoint: returns `0` when
either argument is falsy, otherwise splits both on `'.'`, maps `Number` over
the parts, and compares index by index up to the longer length, each missing
or `NaN` part coercing to `0` via `|| 0`. -/
def compareVersions (v1 v2 : String) : Int :=
  if v1 = "" ∨ v2 = "" then 0
  else
    let parts1 := (splitDots v1).map jsNumber
    let parts2 := (splitDots v2).map jsNumber
    compareParts parts1 parts2 0 (max parts1.length parts2.length)

/-- The signed JWT minted by `generateToken`, as its claims plus the signing
secret standing in for the HMAC signature. -/
structure AccessToken where
  licenseKey : String
  deviceId : String
  purpose : String
  iat : Nat
  exp : Nat
  sig : String
deriving DecidableEq

/-- `generateToken(licenseKey, deviceId)`: the `licenseKey` claim is
`licenseKey.substring(0, 8) + '...'`, the `purpose` claim is the fixed tag,
`iat` is the issuance time in seconds and the expiry is five minutes later
(`setExpirationTime('5m')`). -/
def generateToken (secret licenseKey deviceId : String) (now : Nat) : AccessToken :=
  { licenseKey := String.mk (licenseKey.data.take 8) ++ "..."
    deviceId := deviceId
    purpose := "honed-license"
    iat := now
    exp := now + 300
    sig := secret }

/-- `verifyToken(token)` from the downstream endpoint: `jwtVerify` checks the
signature and that the current time is before `exp` (any failure is caught and
becomes `null`), then the `purpose` claim must equal the fixed tag. -/
def verifyToken (secret : String) (tok : AccessToken) (now : Nat) : Option AccessToken :=
  if tok.sig = secret ∧ now < tok.exp then
    if tok.purpose ≠ "honed-license" then none else some tok
  else none

/-- Row of `extension_versions` selected by the version check
(`minimum_version, version, download_url`). -/
structure VersionRow where
  minimum_version : Option String
  version : String
  download_url : Option String
deriving DecidableEq

/-- Row of `license_keys` selected by the license lookup; the `key` column is
the lookup key itself, so only `revoked` is modelled. -/
structure LicenseRow where
  revoked : Bool
deriving DecidableEq

/-- Observable result of a Supabase `.single()` query: a row, PostgREST's
PGRST116 "no rows" outcome, or any other store failure. -/
inductive DbResult (α : Type) : Type
  | found : α → DbResult α
  | notFound : DbResult α
  | err : DbResult α
deriving DecidableEq

/-- The `updateNotification` object attached when an update is required. -/
structure UpdateNotification where
  message : String
  downloadUrl : Option String
  currentVersion : String
  minimumVersion : String
  latestVersion : String
deriving DecidableEq

/-- A JSON response of the validate endpoint: the HTTP status and the body's
fields, absent fields being `none`.  `boundDeviceId` is the field the spec
says a `DEVICE_MISMATCH` body carries; the handler never sets it. -/
structure Response where
  status : Nat
  valid : Option Bool := none
  reason : Option String := none
  message : Option String := none
  deviceId : Option String := none
  token : Option AccessToken := none
  newDevice : Option Bool := none
  updateNotification : Option UpdateNotification := none
  boundDeviceId : Option String := none
deriving DecidableEq

/-- Store writes performed by one request: the row inserted into
`device_bindings` (if any) and whether the best-effort `last_seen` telemetry
update was attempted. -/
structure Effects where
  insertedBinding : Option (String × String) := none
  telemetryUpdated : Bool := false
deriving DecidableEq

/-- No store writes. -/
def noEffects : Effects := {}

/-- One GET validation request together with the observable results of the
store operations it would perform: the active-version lookup, the license
lookup, the binding lookup, and whether the binding insert succeeds (a
conflicting concurrent insert under the one-row-per-key constraint makes it
fail).  `key`, `deviceId` and `version` are the query parameters, with `""`
standing for an absent parameter (absent and empty are both falsy in the
source). -/
structure HandlerInput where
  masterKillSwitch : Bool
  key : String
  deviceId : String
  version : String
  versionLookup : DbResult VersionRow
  licenseLookup : DbResult LicenseRow
  bindingLookup : DbResult String
  insertOk : Bool
  now : Nat
  secret : String
deriving DecidableEq

/-- The `MAINTENANCE` response. -/
def respMaintenance : Response :=
  { status := 200
    valid := some false
    reason := some "MAINTENANCE"
    message := some "Extension is temporarily disabled for maintenance." }

/-- The HTTP 400 `INVALID_REQUEST` response. -/
def respInvalidRequest : Response :=
  { status := 400
    valid := some false
    reason := some "INVALID_REQUEST"
    message := some "License key and device ID are required" }

/-- The `INVALID` (unknown key) response. -/
def respInvalid : Response :=
  { status := 200
    valid := some false
    reason := some "INVALID"
    message := some "Invalid license key." }

/-- The `REVOKED` response. -/
def respRevoked : Response :=
  { status := 200
    valid := some false
    reason := some "REVOKED"
    message := some "License key has been revoked." }

/-- The `DEVICE_MISMATCH` response: a constant body naming neither the
caller's nor the bound device id. -/
def respMismatch : Response :=
  { status := 200
    valid := some false
    reason := some "DEVICE_MISMATCH"
    message := some "This license key is already bound to another device. Each key can only be used on one device." }

/-- The HTTP 500 `ERROR` response of the outer catch block. -/
def respError : Response :=
  { status := 500
    valid := some false
    reason := some "ERROR"
    message := some "Validation error. Please try again later." }

/-- `version || '1.0'`: the client version, the falsy values (absent
parameter, empty string) defaulting to `"1.0"`. -/
def effectiveCurrent (inp : HandlerInput) : String :=
  if inp.version = "" then "1.0" else inp.version

/-- `versionData.minimum_version || '1.0'`: the policy minimum, the falsy
values (null, empty string) defaulting to `"1.0"`. -/
def effectiveMinimum (vr : VersionRow) : String :=
  match vr.minimum_version with
  | none => "1.0"
  | some m => if m = "" then "1.0" else m

/-- The version-check section of the handler: with an active `extension_versions`
row it compares `version || '1.0'` against `minimum_version || '1.0'` and
builds the update info when the client version compares below the minimum; a
lookup error or the absence of an active row is logged and skipped, the
validation continuing without a version gate.  The source keeps the flag
`versionUpdateRequired` and the object `versionUpdateInfo`, always set
together, modelled here as one `Option`. -/
def versionCheck (inp : HandlerInput) : Option UpdateNotification :=
  match inp.versionLookup with
  | .found vr =>
    let currentVersion := effectiveCurrent inp
    let minimumVersion := effectiveMinimum vr
    if compareVersions currentVersion minimumVersion < 0 then
      some
        { message := "Update required. Your version (" ++ currentVersion ++
            ") is outdated. Please update to version " ++ vr.version ++ " or later."
          downloadUrl := vr.download_url
          currentVersion := currentVersion
          minimumVersion := minimumVersion
          latestVersion := vr.version }
    else none
  | .notFound => none
  | .err => none

/-- `buildResponse(baseResponse)`: when an update is required the base
response is spread into a copy whose `valid` is forced to `false`, whose
`reason` becomes `UPDATE_REQUIRED` and which gains the `updateNotification`;
every other field of the base response is kept. -/
def buildResponse (vu : Option UpdateNotification) (base : Response) : Response :=
  match vu with
  | some info =>
    { base with
      valid := some false
      reason := some "UPDATE_REQUIRED"
      updateNotification := some info }
  | none => base

/-- The `try` block of the handler after the version check: license lookup,
revocation check, binding resolution, binding insert, token issuance, with any
thrown store error caught into the HTTP 500 `ERROR` response. -/
def handlerCore (inp : HandlerInput) (vu : Option UpdateNotification) : Response × Effects :=
  match inp.licenseLookup with
  | .err => (respError, noEffects)
  | .notFound => (respInvalid, noEffects)
  | .found lic =>
    if lic.revoked then (respRevoked, noEffects)
    else
      match inp.bindingLookup with
      | .err => (respError, noEffects)
      | .found boundDevice =>
        if boundDevice = inp.deviceId then
          let token := generateToken inp.secret inp.key inp.deviceId inp.now
          (buildResponse vu
            { status := 200
              valid := some true
              reason := some "VALID"
              message := some "License validated successfully."
              deviceId := some inp.deviceId
              token := some token },
           { insertedBinding := none, telemetryUpdated := true })
        else
          (respMismatch, noEffects)
      | .notFound =>
        if inp.insertOk then
          let token := generateToken inp.secret inp.key inp.deviceId inp.now
          (buildResponse vu
            { status := 200
              valid := some true
              reason := some "VALID"
              message := some "License validated successfully. Device registered."
              deviceId := some inp.deviceId
              newDevice := some true
              token := some token },
           { insertedBinding := some (inp.key, inp.deviceId), telemetryUpdated := false })
        else
          (respError, noEffects)

/-- The validate endpoint for a GET request: kill switch, required-parameter
check, version check, then the license/binding decision. -/
def handler (inp : HandlerInput) : Response × Effects :=
  if inp.masterKillSwitch then (respMaintenance, noEffects)
  else if inp.key = "" ∨ inp.deviceId = "" then (respInvalidRequest, noEffects)
  else handlerCore inp (versionCheck inp)

/-!
The race model: the binding-resolution section of the handler reduced to its
store operations, for two concurrent requests `r1` (device `d1`) and `r2`
(device `d2`) carrying the same license key.  Each request first reads the
binding row, then acts on what it observed: a row bound to its own device is
a success, a row bound to another device is `DEVICE_MISMATCH`, and no row
leads to an insert — which, on the one-row-per-key store, succeeds only if the
row is still absent and otherwise raises the error the handler's catch block
turns into HTTP 500 `ERROR`.
-/

namespace Race

/-- Outcome of one request of the race: a success (with the `newDevice`
flag), the `DEVICE_MISMATCH` rejection, or the HTTP 500 `ERROR` from a thrown
store error. -/
inductive Outcome : Type
  | valid : Bool → Outcome
  | mismatch : Outcome
  | error : Outcome
deriving DecidableEq

/-- One request's progress: its program counter (`0` before the binding read,
`1` between read and decision, `2` finished), what its read observed, and its
outcome once finished. -/
structure ReqState where
  pc : Nat
  observed : Option (Option String)
  outcome : Option Outcome
deriving DecidableEq

/-- State of the race: the `device_bindings` row for the contended key (the
bound device id, or `none` when absent) and both requests. -/
structure RaceState where
  store : Option String
  r1 : ReqState
  r2 : ReqState
deriving DecidableEq

/-- A request before its first store operation. -/
def initReq : ReqState := ⟨0, none, none⟩

/-- Fresh key, both requests unstarted. -/
def init : RaceState := ⟨none, initReq, initReq⟩

/-- Executes the next store operation of one request with device id `me`
against the current binding row, returning the updated row and request. -/
def stepReq (me : String) (store : Option String) (r : ReqState) :
    Option String × ReqState :=
  match r.pc, r.observed with
  | 0, _ => (store, { r with pc := 1, observed := some store })
  | 1, some (some d) =>
    if d = me then (store, { r with pc := 2, outcome := some (.valid false) })
    else (store, { r with pc := 2, outcome := some .mismatch })
  | 1, some none =>
    match store with
    | none => (some me, { r with pc := 2, outcome := some (.valid true) })
    | some _ => (store, { r with pc := 2, outcome := some .error })
  | _, _ => (store, r)

/-- Runs one scheduler step: `false` steps request 1, `true` steps request 2. -/
def step (d1 d2 : String) (s : RaceState) (who : Bool) : RaceState :=
  if who then
    let next := stepReq d2 s.store s.r2
    { s with store := next.1, r2 := next.2 }
  else
    let next := stepReq d1 s.store s.r1
    { s with store := next.1, r1 := next.2 }

/-- Runs a whole interleaving from the fresh-key initial state. -/
def run (d1 d2 : String) (sched : List Bool) : RaceState :=
  sched.foldl (step d1 d2) init

end Race

/-!
Specification-side definitions, written from the spec's words for the
refinement claims about version comparison: parse a version as a tuple of
non-negative integers, pad the shorter tuple with trailing zeros, compare
lexicographically.
-/

/-- Value of an all-digit character list, most significant first. -/
def natOfDigits (cs : List Char) : Nat :=
  cs.foldl (fun acc c => acc * 10 + (c.toNat - 48)) 0

/-- The spec's reading of a version string: the dot-separated tuple of
non-negative integers. -/
def specTuple (s : String) : List Nat :=
  (splitDots s).map (fun p => natOfDigits p.data)

/-- Pads a tuple with trailing zeros to length `n`. -/
def padTo (n : Nat) (l : List Nat) : List Nat :=
  l ++ List.replicate (n - l.length) 0

/-- A tuple of non-negative integers viewed as a list of parsed (non-`NaN`)
version components. -/
def intOf (t : List Nat) : List (Option Int) :=
  t.map fun k : Nat => some (k : Int)

/-- Lexicographic three-way comparison of two equal-length tuples. -/
def lexCompare : List Nat → List Nat → Int
  | x :: xs, y :: ys =>
    if x < y then -1 else if y < x then 1 else lexCompare xs ys
  | _, _ => 0

/-- The spec's version order: compare the zero-padded tuples
lexicographically. -/
def specCompare (v1 v2 : String) : Int :=
  let t1 := specTuple v1
  let t2 := specTuple v2
  let n := max t1.length t2.length
  lexCompare (padTo n t1) (padTo n t2)

/-- A well-formed version string: non-empty, and every dot-separated component
a non-empty string of decimal digits. -/
def wfVersion (s : String) : Bool :=
  !s.data.isEmpty && (splitDots s).all (fun p => !p.data.isEmpty && p.data.all Char.isDigit)

/-- A baseline request used to instantiate the theorems: key `"ABC-1"` from
device `"devA"` at version `"2.0"`, active policy with minimum `"1.0"`,
license present and not revoked, binding already held by `"devA"`. -/
def baseInput : HandlerInput :=
  { masterKillSwitch := false
    key := "ABC-1"
    deviceId := "devA"
    version := "2.0"
    versionLookup := .found ⟨some "1.0", "2.0", none⟩
    licenseLookup := .found ⟨false⟩
    bindingLookup := .found "devA"
    insertOk := true
    now := 0
    secret := "s" }

/-! ### Helper lemmas -/

theorem buildResponse_status (vu : Option UpdateNotification) (b : Response) :
    (buildResponse vu b).status = b.status := by
  cases vu <;> rfl

theorem handlerCore_status (inp : HandlerInput) (vu vu' : Option UpdateNotification) :
    (handlerCore inp vu).1.status = (handlerCore inp vu').1.status := by
  unfold handlerCore
  cases inp.licenseLookup with
  | err => rfl
  | notFound => rfl
  | found lic =>
    by_cases h : lic.revoked = true
    · simp [h]
    · simp only [Bool.not_eq_true] at h
      cases inp.bindingLookup with
      | err => simp [h]
      | notFound =>
        by_cases hi : inp.insertOk = true <;> simp [h, hi, buildResponse_status]
      | found d =>
        by_cases hd : d = inp.deviceId <;> simp [h, hd, buildResponse_status]

theorem intOf_length (t : List Nat) : (intOf t).length = t.length :=
  List.length_map _ _

theorem intOf_tail (t : List Nat) : (intOf t).tail = intOf t.tail := by
  cases t <;> rfl

theorem partAt_intOf_zero (t : List Nat) :
    partAt (intOf t) 0 = ((t.headD 0 : Nat) : Int) := by
  cases t <;> rfl

theorem partAt_succ_tail (ps : List (Option Int)) (i : Nat) :
    partAt ps (i + 1) = partAt ps.tail i := by
  cases ps <;> rfl

theorem partAt_of_length_le (ps : List (Option Int)) (j : Nat) (h : ps.length ≤ j) :
    partAt ps j = 0 := by
  unfold partAt
  rw [List.get?_eq_none.mpr h]
  rfl

theorem compareParts_succ (ps1 ps2 : List (Option Int)) :
    ∀ (n i : Nat), compareParts ps1 ps2 (i + 1) n = compareParts ps1.tail ps2.tail i n := by
  intro n
  induction n with
  | zero => intro i; rfl
  | succ n ih =>
    intro i
    simp only [compareParts, partAt_succ_tail, ih]

theorem padTo_succ (n : Nat) (t : List Nat) :
    padTo (n + 1) t = t.headD 0 :: padTo n t.tail := by
  cases t <;> simp [padTo, List.replicate_succ, Nat.succ_sub_succ]

theorem compareParts_eq_lexCompare :
    ∀ (n : Nat) (t1 t2 : List Nat), t1.length ≤ n → t2.length ≤ n →
      compareParts (intOf t1) (intOf t2) 0 n = lexCompare (padTo n t1) (padTo n t2) := by
  intro n
  induction n with
  | zero =>
    intro t1 t2 h1 h2
    have e1 : t1 = [] := List.length_eq_zero.mp (Nat.le_zero.mp h1)
    have e2 : t2 = [] := List.length_eq_zero.mp (Nat.le_zero.mp h2)
    subst e1; subst e2; rfl
  | succ n ih =>
    intro t1 t2 h1 h2
    have ht1 : t1.tail.length ≤ n := by
      have := t1.length_tail; omega
    have ht2 : t2.tail.length ≤ n := by
      have := t2.length_tail; omega
    rw [padTo_succ, padTo_succ]
    simp only [compareParts, partAt_intOf_zero, compareParts_succ, intOf_tail]
    rw [ih t1.tail t2.tail ht1 ht2]
    by_cases hxy : t1.headD 0 < t2.headD 0
    · simp [lexCompare, hxy]
    · by_cases hyx : t2.headD 0 < t1.headD 0
      · have hx : ¬ ((t1.headD 0 : Int) < (t2.headD 0 : Int)) := by exact_mod_cast hxy
        simp [lexCompare, hxy, hyx, hx]
      · have hx : ¬ ((t1.headD 0 : Int) < (t2.headD 0 : Int)) := by exact_mod_cast hxy
        have hy : ¬ ((t2.headD 0 : Int) < (t1.headD 0 : Int)) := by exact_mod_cast hyx
        simp [lexCompare, hxy, hyx, hx, hy]

theorem decDigitsAux_all_digits :
    ∀ (cs : List Char) (acc : Nat), cs.all Char.isDigit = true →
      decDigitsAux cs acc = some (cs.foldl (fun a c => a * 10 + (c.toNat - 48)) acc) := by
  intro cs
  induction cs with
  | nil => intro acc _; rfl
  | cons c cs ih =>
    intro acc h
    simp only [List.all_cons, Bool.and_eq_true] at h
    simp [decDigitsAux, h.1, ih _ h.2, List.foldl_cons]

theorem jsNumber_digits (p : String) (hne : p.data ≠ []) (hdig : p.data.all Char.isDigit = true) :
    jsNumber p = some ((natOfDigits p.data : Nat) : Int) := by
  obtain ⟨l⟩ := p
  rcases l with _ | ⟨c, cs⟩
  · exact absurd rfl hne
  · have hall : (c :: cs).all Char.isDigit = true := hdig
    have hc : c.isDigit = true := by
      simp only [List.all_cons, Bool.and_eq_true] at hall
      exact hall.1
    have hminus : ¬ (c = '-') := fun h => absurd (h ▸ hc) (by decide)
    have hplus : ¬ (c = '+') := fun h => absurd (h ▸ hc) (by decide)
    have hdd : decDigits (c :: cs) = some (natOfDigits (c :: cs)) := by
      rw [decDigits, decDigitsAux_all_digits (c :: cs) 0 hdig]
      rfl
    show jsNumber ⟨c :: cs⟩ = some ((natOfDigits (c :: cs) : Nat) : Int)
    unfold jsNumber
    dsimp only
    rw [if_neg hminus, if_neg hplus, hdd]
    rfl

theorem wf_data_ne_nil {v : String} (h : wfVersion v = true) : v.data ≠ [] := by
  simp only [wfVersion, Bool.and_eq_true, Bool.not_eq_true'] at h
  intro he
  rw [he] at h
  simp at h

theorem wf_ne_empty {v : String} (h : wfVersion v = true) : v ≠ "" := by
  intro he
  exact wf_data_ne_nil h (by rw [he])

theorem parts_of_wf {v : String} (h : wfVersion v = true) :
    (splitDots v).map jsNumber = intOf (specTuple v) := by
  simp only [wfVersion, Bool.and_eq_true] at h
  have hall := h.2
  rw [List.all_eq_true] at hall
  rw [intOf, specTuple, List.map_map]
  apply List.map_congr_left
  intro p hp
  have hw := hall p hp
  simp only [Bool.and_eq_true, Bool.not_eq_true'] at hw
  rw [jsNumber_digits p (by simpa using hw.1) hw.2]
  rfl

theorem compareVersions_eq_specCompare (v1 v2 : String)
    (h1 : wfVersion v1 = true) (h2 : wfVersion v2 = true) :
    compareVersions v1 v2 = specCompare v1 v2 := by
  have hne1 : ¬ (v1 = "") := wf_ne_empty h1
  have hne2 : ¬ (v2 = "") := wf_ne_empty h2
  rw [compareVersions, specCompare, if_neg (by simp [hne1, hne2])]
  simp only [parts_of_wf h1, parts_of_wf h2, intOf_length]
  exact compareParts_eq_lexCompare _ (specTuple v1) (specTuple v2)
    (Nat.le_max_left _ _) (Nat.le_max_right _ _)

theorem partAt_zero_of_all_none {ps : List (Option Int)}
    (h : ∀ x ∈ ps, x = none) (j : Nat) : partAt ps j = 0 := by
  unfold partAt
  rcases hg : ps.get? j with _ | x
  · rfl
  · have hx := h x (List.get?_mem hg)
    subst hx
    rfl

theorem partAt_single_zero (j : Nat) : partAt [some 0] j = 0 := by
  cases j <;> rfl

theorem compareParts_congr_left {ps1 ps1' : List (Option Int)}
    (h : ∀ j, partAt ps1 j = partAt ps1' j) (ps2 : List (Option Int)) :
    ∀ (n i : Nat), compareParts ps1 ps2 i n = compareParts ps1' ps2 i n := by
  intro n
  induction n with
  | zero => intro i; rfl
  | succ n ih => intro i; simp only [compareParts, h, ih]

theorem compareParts_zero {ps1 ps2 : List (Option Int)}
    (h : ∀ j, partAt ps1 j = 0) :
    ∀ (n i : Nat), ps2.length ≤ i → compareParts ps1 ps2 i n = 0 := by
  intro n
  induction n with
  | zero => intro i _; rfl
  | succ n ih =>
    intro i hi
    simp only [compareParts, h, partAt_of_length_le ps2 i hi, lt_irrefl, gt_iff_lt,
      if_false]
    exact ih (i + 1) (Nat.le_succ_of_le hi)

theorem compareParts_fuel {ps1 ps2 : List (Option Int)}
    (h : ∀ j, partAt ps1 j = 0) :
    ∀ (n n' i : Nat), ps2.length ≤ i + n → ps2.length ≤ i + n' →
      compareParts ps1 ps2 i n = compareParts ps1 ps2 i n' := by
  intro n
  induction n with
  | zero =>
    intro n' i hn hn'
    rw [Nat.add_zero] at hn
    exact (compareParts_zero h n' i hn).symm
  | succ n ih =>
    intro n' i hn hn'
    cases n' with
    | zero =>
      rw [Nat.add_zero] at hn'
      exact compareParts_zero h (n + 1) i hn'
    | succ n' =>
      simp only [compareParts]
      split
      · rfl
      · split
        · rfl
        · exact ih n' (i + 1) (by omega) (by omega)

/-! ### Claims -/

/-- C1: the claim says that when two first-activation requests race on a
never-before-bound key, the loser observes `DEVICE_MISMATCH` naming the winner
and never an error, the create being a store-level conditional insert rather
than a read-then-write.  The code instead reads the binding and then inserts:
in the interleaving where both requests read before either inserts, the
loser's insert hits the already-created row, the resulting store error is
thrown, and the loser is answered with the HTTP 500 `ERROR` response — not
with `DEVICE_MISMATCH`. -/
theorem C1_race_loser_gets_error :
    (Race.run "D1" "D2" [false, true, false, true]).store = some "D1" ∧
      (Race.run "D1" "D2" [false, true, false, true]).r1.outcome = some (.valid true) ∧
      (Race.run "D1" "D2" [false, true, false, true]).r2.outcome = some .error ∧
      (Race.run "D1" "D2" [false, true, false, true]).r2.outcome ≠ some .mismatch := by
  decide

/-- C2 counterexample: a request from the bound device whose client version is
below the policy minimum is answered with reason `UPDATE_REQUIRED` — and the
response still carries the signed token, because `buildResponse` spreads the
successful base response and overrides only `valid`, `reason` and
`updateNotification`. -/
theorem C2_counterexample :
    (handler { baseInput with version := "1.0", versionLookup := .found ⟨some "2.0", "2.0", none⟩ }).1.reason
        = some "UPDATE_REQUIRED" ∧
      (handler { baseInput with version := "1.0", versionLookup := .found ⟨some "2.0", "2.0", none⟩ }).1.token
        ≠ none := by
  decide

/-- C2 amended: a signed token is present in the response body exactly when
the pre-overlay binding resolution succeeded, i.e. exactly when the final
reason is `VALID` or `UPDATE_REQUIRED`; in particular every `UPDATE_REQUIRED`
response carries the token. -/
theorem C2_token_iff_binding_success (inp : HandlerInput) :
    ((handler inp).1.token ≠ none) ↔
      ((handler inp).1.reason = some "VALID" ∨ (handler inp).1.reason = some "UPDATE_REQUIRED") := by
  unfold handler
  by_cases hk : inp.masterKillSwitch = true
  · simp [hk, respMaintenance, noEffects]
  · simp only [Bool.not_eq_true] at hk
    by_cases hr : (inp.key = "" ∨ inp.deviceId = "")
    · simp [hk, hr, respInvalidRequest]
    · simp only [hk, hr, if_false, Bool.false_eq_true]
      generalize versionCheck inp = vu
      unfold handlerCore
      cases inp.licenseLookup with
      | err => simp [respError]
      | notFound => simp [respInvalid]
      | found lic =>
        by_cases hrev : lic.revoked = true
        · simp [hrev, respRevoked]
        · simp only [Bool.not_eq_true] at hrev
          cases inp.bindingLookup with
          | err => simp [hrev, respError]
          | notFound =>
            by_cases hi : inp.insertOk = true
            · cases vu <;> simp [hrev, hi, buildResponse]
            · simp only [Bool.not_eq_true] at hi
              simp [hrev, hi, respError]
          | found d =>
            by_cases hd : d = inp.deviceId
            · cases vu <;> simp [hrev, hd, buildResponse]
            · simp [hrev, hd, respMismatch]

/-- C3 counterexample: key bound to `"devA"`, request from `"devB"`: the
outcome is `DEVICE_MISMATCH`, but the body discloses neither the bound device
id nor the caller's (there is no `boundDeviceId` field and no `deviceId`
field), contrary to the claimed disclosure of both. -/
theorem C3_counterexample :
    (handler { baseInput with deviceId := "devB" }).1.reason = some "DEVICE_MISMATCH" ∧
      (handler { baseInput with deviceId := "devB" }).1.boundDeviceId = none ∧
      (handler { baseInput with deviceId := "devB" }).1.deviceId = none := by
  decide

/-- C3 amended: when the key's binding names a different device the outcome is
`DEVICE_MISMATCH` and nothing is written to the store, but the response is a
fixed constant body — independent of both device ids, so it discloses neither
the caller's device id nor the bound one. -/
theorem C3_mismatch_constant_response (inp : HandlerInput) (lic : LicenseRow) (d : String)
    (hkill : inp.masterKillSwitch = false) (hkey : inp.key ≠ "") (hdev : inp.deviceId ≠ "")
    (hlic : inp.licenseLookup = .found lic) (hrev : lic.revoked = false)
    (hbind : inp.bindingLookup = .found d) (hne : d ≠ inp.deviceId) :
    handler inp = (respMismatch, noEffects) := by
  simp [handler, handlerCore, hkill, hkey, hdev, hlic, hrev, hbind, hne]

/-- Witness for the amended C3 at the baseline input with caller `"devB"`. -/
theorem C3_mismatch_constant_response_witness :
    handler { baseInput with deviceId := "devB" } = (respMismatch, noEffects) :=
  C3_mismatch_constant_response _ ⟨false⟩ "devA" rfl (by decide) (by decide) rfl rfl rfl
    (by decide)

/-- C5 counterexample: the version-policy lookup fails (`err`), yet the
request is answered HTTP 200 `VALID` — the handler logs the failure and
continues, so not every store failure yields HTTP 500 `ERROR`. -/
theorem C5_counterexample :
    ({ baseInput with versionLookup := .err } : HandlerInput).versionLookup = DbResult.err ∧
      (handler { baseInput with versionLookup := .err }).1.status = 200 ∧
      (handler { baseInput with versionLookup := .err }).1.reason = some "VALID" := by
  decide

/-- C5 amended: a failing license lookup, binding read or binding insert each
yields the HTTP 500 `ERROR` response, but a failing version-policy lookup is
swallowed: it behaves exactly like the absence of an active policy and the
validation proceeds. -/
theorem C5_store_failures (inp : HandlerInput)
    (hkill : inp.masterKillSwitch = false) (hkey : inp.key ≠ "") (hdev : inp.deviceId ≠ "") :
    (inp.licenseLookup = .err → handler inp = (respError, noEffects)) ∧
      (∀ lic, inp.licenseLookup = .found lic → lic.revoked = false →
        inp.bindingLookup = .err → handler inp = (respError, noEffects)) ∧
      (∀ lic, inp.licenseLookup = .found lic → lic.revoked = false →
        inp.bindingLookup = .notFound → inp.insertOk = false →
        handler inp = (respError, noEffects)) ∧
      handler { inp with versionLookup := .err } = handler { inp with versionLookup := .notFound } := by
  refine ⟨?_, ?_, ?_, rfl⟩
  · intro h
    simp [handler, handlerCore, hkill, hkey, hdev, h]
  · intro lic h hrev hb
    simp [handler, handlerCore, hkill, hkey, hdev, h, hrev, hb]
  · intro lic h hrev hb hi
    simp [handler, handlerCore, hkill, hkey, hdev, h, hrev, hb, hi]

/-- Witness for the amended C5: each failing store operation at the baseline
input, evaluated. -/
theorem C5_store_failures_witness :
    handler { baseInput with licenseLookup := .err } = (respError, noEffects) ∧
      handler { baseInput with bindingLookup := .err } = (respError, noEffects) ∧
      handler { baseInput with bindingLookup := .notFound, insertOk := false }
        = (respError, noEffects) := by
  refine ⟨?_, ?_, ?_⟩
  · exact (C5_store_failures _ rfl (by decide) (by decide)).1 rfl
  · exact (C5_store_failures _ rfl (by decide) (by decide)).2.1 ⟨false⟩ rfl rfl rfl
  · exact (C5_store_failures _ rfl (by decide) (by decide)).2.2.1 ⟨false⟩ rfl rfl rfl rfl

/-- C6 counterexample: for the five-character key `"ABC-1"` the credential's
license-key claim is `"ABC-1..."` — the full key embedded verbatim (its first
five characters are the key), so a short key is recoverable in full from the
payload. -/
theorem C6_counterexample :
    (generateToken "s" "ABC-1" "devA" 0).licenseKey = "ABC-1" ++ "..." ∧
      String.mk ((generateToken "s" "ABC-1" "devA" 0).licenseKey.data.take 5) = "ABC-1" := by
  decide

/-- C6 amended: the credential's license-key claim is the first eight
characters of the key followed by `"..."`.  It depends only on that prefix, so
distinct keys longer than eight characters can share a claim (the full key is
not recoverable for them) — but any key of at most eight characters appears in
the claim in full. -/
theorem C6_fragment :
    (∀ (s k d : String) (t : Nat), k.data.length ≤ 8 →
        (generateToken s k d t).licenseKey = k ++ "...") ∧
      (∀ (s d k1 k2 : String) (t : Nat), k1.data.take 8 = k2.data.take 8 →
        (generateToken s k1 d t).licenseKey = (generateToken s k2 d t).licenseKey) ∧
      (∃ k1 k2 : String, k1 ≠ k2 ∧ 8 < k1.data.length ∧ 8 < k2.data.length ∧
        ∀ (s d : String) (t : Nat),
          (generateToken s k1 d t).licenseKey = (generateToken s k2 d t).licenseKey) := by
  refine ⟨?_, ?_, "AAAAAAAAX", "AAAAAAAAY", by decide, by decide, by decide, ?_⟩
  · intro s k d t h
    show String.mk (k.data.take 8) ++ "..." = k ++ "..."
    rw [List.take_of_length_le h]
  · intro s d k1 k2 t h
    show String.mk (k1.data.take 8) ++ "..." = String.mk (k2.data.take 8) ++ "..."
    rw [h]
  · intro s d t
    rfl

/-- Witness for the amended C6: the short key `"ABC"` appears in full in its
credential's license-key claim. -/
theorem C6_fragment_witness :
    (generateToken "s" "ABC" "devA" 0).licenseKey = "ABC" ++ "..." :=
  C6_fragment.1 "s" "ABC" "devA" 0 (by decide)

/-- C8: a credential issued for `(k, d)` at time `t` verifies at `t + 299`
(one second before the five-minute expiry) to a payload carrying the same
device id `d`, and no longer verifies at `t + 301` (one second after). -/
theorem C8_roundtrip_and_expiry (secret k d : String) (t : Nat) :
    verifyToken secret (generateToken secret k d t) (t + 299) = some (generateToken secret k d t) ∧
      (generateToken secret k d t).deviceId = d ∧
      verifyToken secret (generateToken secret k d t) (t + 301) = none := by
  refine ⟨?_, rfl, ?_⟩
  · simp [verifyToken, generateToken]
  · simp [verifyToken, generateToken]

/-- C9: a revoked key is answered `REVOKED` (HTTP 200, `valid = false`) with
no store write, whatever the binding state, the requesting device and the
client version — the revocation check precedes binding resolution and its
response bypasses the version overlay. -/
theorem C9_revoked (inp : HandlerInput) (lic : LicenseRow)
    (hkill : inp.masterKillSwitch = false) (hkey : inp.key ≠ "")
    (hdev : inp.deviceId ≠ "") (hlic : inp.licenseLookup = .found lic)
    (hrev : lic.revoked = true) :
    handler inp = (respRevoked, noEffects) := by
  simp [handler, handlerCore, hkill, hkey, hdev, hlic, hrev]

/-- Witness for C9: revoked key at the baseline input, with an outdated
client version and a binding held by another device. -/
theorem C9_revoked_witness :
    handler { baseInput with
        licenseLookup := .found ⟨true⟩
        version := "0.1"
        bindingLookup := .found "devZ" } = (respRevoked, noEffects) :=
  C9_revoked _ ⟨true⟩ rfl (by decide) (by decide) rfl rfl

/-- C10: a valid, unbound, non-revoked key whose client version fails the
gate still gets its permanent binding inserted — the response reports
`valid = false` with `UPDATE_REQUIRED` (and even carries the token), yet the
key's single lifetime activation has been consumed for that device. -/
theorem C10_update_required_consumes_activation (inp : HandlerInput) (vr : VersionRow)
    (lic : LicenseRow)
    (hkill : inp.masterKillSwitch = false) (hkey : inp.key ≠ "") (hdev : inp.deviceId ≠ "")
    (hvr : inp.versionLookup = .found vr) (hlic : inp.licenseLookup = .found lic)
    (hrev : lic.revoked = false) (hbind : inp.bindingLookup = .notFound)
    (hins : inp.insertOk = true)
    (hcmp : compareVersions (effectiveCurrent inp) (effectiveMinimum vr) < 0) :
    (handler inp).2.insertedBinding = some (inp.key, inp.deviceId) ∧
      (handler inp).1.reason = some "UPDATE_REQUIRED" ∧
      (handler inp).1.valid = some false ∧
      (handler inp).1.token ≠ none := by
  simp [handler, handlerCore, versionCheck, buildResponse, hkill, hkey, hdev, hvr, hlic,
    hrev, hbind, hins, hcmp]

/-- Witness for C10: fresh key, client at `"1.0"` against minimum `"2.0"`:
the binding is created and the response is `UPDATE_REQUIRED`. -/
theorem C10_update_required_consumes_activation_witness :
    (handler { baseInput with
        version := "1.0"
        versionLookup := .found ⟨some "2.0", "2.0", none⟩
        bindingLookup := .notFound }).2.insertedBinding = some ("ABC-1", "devA") ∧
      (handler { baseInput with
          version := "1.0"
          versionLookup := .found ⟨some "2.0", "2.0", none⟩
          bindingLookup := .notFound }).1.reason = some "UPDATE_REQUIRED" ∧
      (handler { baseInput with
          version := "1.0"
          versionLookup := .found ⟨some "2.0", "2.0", none⟩
          bindingLookup := .notFound }).1.valid = some false ∧
      (handler { baseInput with
          version := "1.0"
          versionLookup := .found ⟨some "2.0", "2.0", none⟩
          bindingLookup := .notFound }).1.token ≠ none :=
  C10_update_required_consumes_activation _ ⟨some "2.0", "2.0", none⟩ ⟨false⟩ rfl (by decide)
    (by decide) rfl rfl rfl rfl rfl (by decide)

/-- C4 counterexample: with policy minimum `"1.0"`, the malformed client
version `"abc"` is rejected with `UPDATE_REQUIRED`, while the version `"1.0"`
— which the claim says malformed input is treated as — passes and yields
`VALID`.  Malformed components coerce to `0` (via `NaN || 0`), not to
`"1.0"`. -/
theorem C4_counterexample :
    (handler { baseInput with version := "abc" }).1.reason = some "UPDATE_REQUIRED" ∧
      (handler { baseInput with version := "1.0" }).1.reason = some "VALID" := by
  decide

/-- C4 amended: an absent (empty) client version is treated exactly as
`"1.0"`; a malformed version is not — each non-numeric component coerces to
`0`, so a fully non-numeric version compares exactly like the string `"0"`;
and the client version never influences the HTTP status, in particular it
never causes an error outcome. -/
theorem C4_version_default :
    (∀ inp : HandlerInput,
        handler { inp with version := "" } = handler { inp with version := "1.0" }) ∧
      (∀ v m : String, v ≠ "" →
        ((splitDots v).all fun p => (jsNumber p).isNone) = true →
        compareVersions v m = compareVersions "0" m) ∧
      (∀ (inp : HandlerInput) (v : String),
        (handler inp).1.status = (handler { inp with version := v }).1.status) := by
  refine ⟨fun inp => rfl, ?_, ?_⟩
  · intro v m hv hall
    by_cases hm : m = ""
    · simp only [compareVersions]
      rw [if_pos (Or.inr hm), if_pos (Or.inr hm)]
    · simp only [compareVersions]
      rw [if_neg (by simp [hv, hm]), if_neg (by simp [hm])]
      have h0 : (splitDots "0").map jsNumber = [some 0] := rfl
      rw [h0]
      have hz1 : ∀ j, partAt ((splitDots v).map jsNumber) j = 0 := by
        intro j
        apply partAt_zero_of_all_none _ j
        intro x hx
        rcases List.mem_map.mp hx with ⟨p, hp, hpx⟩
        rw [List.all_eq_true] at hall
        have h := hall p hp
        rw [Option.isNone_iff_eq_none] at h
        rw [← hpx, h]
      calc compareParts ((splitDots v).map jsNumber) ((splitDots m).map jsNumber) 0
            (max ((splitDots v).map jsNumber).length ((splitDots m).map jsNumber).length)
          = compareParts [some 0] ((splitDots m).map jsNumber) 0
              (max ((splitDots v).map jsNumber).length ((splitDots m).map jsNumber).length) :=
            compareParts_congr_left (fun j => (hz1 j).trans (partAt_single_zero j).symm) _ _ 0
        _ = compareParts [some 0] ((splitDots m).map jsNumber) 0
              (max (List.length [some 0]) ((splitDots m).map jsNumber).length) := by
            refine compareParts_fuel partAt_single_zero _ _ 0 ?_ ?_ <;>
              simp [Nat.le_max_right]
  · intro inp v
    unfold handler
    by_cases hk : inp.masterKillSwitch = true
    · have hk' : ({ inp with version := v } : HandlerInput).masterKillSwitch = true := hk
      rw [if_pos hk, if_pos hk']
    · have hk' : ¬ ({ inp with version := v } : HandlerInput).masterKillSwitch = true := hk
      rw [if_neg hk, if_neg hk']
      by_cases hr : (inp.key = "" ∨ inp.deviceId = "")
      · have hr' : (({ inp with version := v } : HandlerInput).key = "" ∨
            ({ inp with version := v } : HandlerInput).deviceId = "") := hr
        rw [if_pos hr, if_pos hr']
      · have hr' : ¬ (({ inp with version := v } : HandlerInput).key = "" ∨
            ({ inp with version := v } : HandlerInput).deviceId = "") := hr
        rw [if_neg hr, if_neg hr']
        exact (handlerCore_status inp (versionCheck inp)
          (versionCheck { inp with version := v })).trans rfl

/-- Witness for the amended C4: the empty version at the baseline input, the
fully non-numeric version `"abc"` against minimum `"2.0"`, and the status
invariance at a junk version. -/
theorem C4_version_default_witness :
    handler { baseInput with version := "" } = handler { baseInput with version := "1.0" } ∧
      compareVersions "abc" "2.0" = compareVersions "0" "2.0" ∧
      (handler baseInput).1.status = (handler { baseInput with version := "zzz" }).1.status :=
  ⟨C4_version_default.1 baseInput,
    C4_version_default.2.1 "abc" "2.0" (by decide) (by decide),
    C4_version_default.2.2 baseInput "zzz"⟩

/-- C7: on well-formed version strings (dot-separated non-empty runs of
digits) `compareVersions` computes exactly the spec's order — parse as a
tuple of non-negative integers, pad the shorter tuple with trailing zeros,
compare lexicographically; hence `"1.9" < "1.10" < "2.0"` and
`"1.2" = "1.2.0"`; and on a successful binding the gate overlays
`UPDATE_REQUIRED` exactly when the client version is below the minimum in
this order, `VALID` otherwise. -/
theorem C7_version_order :
    (∀ v1 v2, wfVersion v1 = true → wfVersion v2 = true →
        compareVersions v1 v2 = specCompare v1 v2) ∧
      (compareVersions "1.9" "1.10" = -1 ∧ compareVersions "1.10" "2.0" = -1 ∧
        compareVersions "1.2" "1.2.0" = 0) ∧
      (∀ (inp : HandlerInput) (vr : VersionRow) (lic : LicenseRow),
        inp.masterKillSwitch = false → inp.key ≠ "" → inp.deviceId ≠ "" →
        inp.versionLookup = .found vr → inp.licenseLookup = .found lic →
        lic.revoked = false → inp.bindingLookup = .found inp.deviceId →
        wfVersion (effectiveCurrent inp) = true → wfVersion (effectiveMinimum vr) = true →
        (((handler inp).1.reason = some "UPDATE_REQUIRED") ↔
            specCompare (effectiveCurrent inp) (effectiveMinimum vr) < 0) ∧
          (((handler inp).1.reason = some "VALID") ↔
            ¬ specCompare (effectiveCurrent inp) (effectiveMinimum vr) < 0)) := by
  refine ⟨compareVersions_eq_specCompare, ⟨by decide, by decide, by decide⟩, ?_⟩
  intro inp vr lic hkill hkey hdev hvr hlic hrev hbind hwc hwm
  rw [← compareVersions_eq_specCompare _ _ hwc hwm]
  by_cases hcmp : compareVersions (effectiveCurrent inp) (effectiveMinimum vr) < 0
  · constructor <;>
      simp [handler, handlerCore, versionCheck, buildResponse, hkill, hkey, hdev, hvr,
        hlic, hrev, hbind, hcmp]
  · constructor <;>
      simp [handler, handlerCore, versionCheck, buildResponse, hkill, hkey, hdev, hvr,
        hlic, hrev, hbind, hcmp]

/-- Witness for C7: the order equivalence at `"1.9"` versus `"1.10"`, and the
gate linkage at the baseline input (version `"2.0"`, minimum `"1.0"`). -/
theorem C7_version_order_witness :
    compareVersions "1.9" "1.10" = specCompare "1.9" "1.10" ∧
      ((handler baseInput).1.reason = some "UPDATE_REQUIRED" ↔
        specCompare (effectiveCurrent baseInput) (effectiveMinimum ⟨some "1.0", "2.0", none⟩) < 0) :=
  ⟨C7_version_order.1 "1.9" "1.10" (by decide) (by decide),
    (C7_version_order.2.2 baseInput ⟨some "1.0", "2.0", none⟩ ⟨false⟩ rfl (by decide)
      (by decide) rfl rfl rfl rfl (by decide) (by decide)).1⟩

end LicenseCore
